import Mathlib

/-!
Verification of the trigger.dev client-side workflow host
(`packages/trigger-sdk/src/client.ts`) against its natural-language
specification.  The TypeScript client is shallowly embedded: JSON values
are modelled by an inductive `JsValue`, the pending-callback `Map`s of
`TriggerClient` by association lists, the `TRIGGER_WORKFLOW` handler and
the journaled context operations by trace-producing functions, and the
host-level `#send` retry loop by a recursion over a list of RPC
outcomes.  Transport sends other than `START_WORKFLOW_RUN` are modelled
as succeeding (the wire is an external collaborator); the possible
failure of the `START_WORKFLOW_RUN` send is modelled explicitly because
the executor has a dedicated catch branch for it.
-/

/-- A JavaScript/JSON value as it appears in message payloads, user
function outputs and thrown values.  `undefined` is JavaScript `undefined`,
distinct from `null`.  Objects are ordered field lists; property lookup
takes the first matching field. -/
inductive JsValue where
  | null : JsValue
  | undefined : JsValue
  | bool : Bool → JsValue
  | num : Int → JsValue
  | str : String → JsValue
  | arr : List JsValue → JsValue
  | obj : List (String × JsValue) → JsValue
deriving Repr

/-- JavaScript truthiness of a value: `undefined`, `null`, `false`, `0`
and the empty string are falsy; every array and object is truthy. -/
def truthy : JsValue → Bool
  | .null => false
  | .undefined => false
  | .bool b => b
  | .num n => n != 0
  | .str s => s != ""
  | .arr _ => true
  | .obj _ => true

mutual

/-- Rendering of a defined value by `JSON.stringify` (string escaping is
elided; no claim inspects the rendered characters).  Inside arrays,
`undefined` renders as `null`; object fields whose value is `undefined`
are dropped, as in JavaScript. -/
def jsonRender : JsValue → String
  | .null => "null"
  | .undefined => "null"
  | .bool true => "true"
  | .bool false => "false"
  | .num n => toString n
  | .str s => "\"" ++ s ++ "\""
  | .arr xs => "[" ++ jsonRenderArr xs ++ "]"
  | .obj fs => "\x7b" ++ jsonRenderFields fs ++ "\x7d"

/-- Comma-separated rendering of array elements. -/
def jsonRenderArr : List JsValue → String
  | [] => ""
  | [x] => jsonRender x
  | x :: xs => jsonRender x ++ "," ++ jsonRenderArr xs

/-- Comma-separated rendering of object fields, dropping `undefined`
values. -/
def jsonRenderFields : List (String × JsValue) → String
  | [] => ""
  | (_, .undefined) :: fs => jsonRenderFields fs
  | (k, v) :: fs =>
      "\"" ++ k ++ "\":" ++ jsonRender v ++
        (match fs with
         | [] => ""
         | _ => "," ++ jsonRenderFields fs)

end

/-- `JSON.stringify`: `undefined` at top level serializes to `undefined`
(modelled as `none`); every other value serializes to a string. -/
def jsonStringify : JsValue → Option String
  | .undefined => none
  | v => some (jsonRender v)

/-- `messageKey` from `client.ts`: the correlation key of every
pending-callback table entry is the run id and the user key joined by a
colon. -/
def messageKey (runId key : String) : String := runId ++ ":" ++ key

/-- A zod-style schema, reduced to its parse function: `some v` is a
successful parse producing `v`, `none` is a validation failure (in the
source, a thrown `ZodError`). -/
structure Schema where
  parse : JsValue → Option JsValue

/-- `z.any()`: accepts every value unchanged. -/
def zAny : Schema := ⟨fun v => some v⟩

/-- `z.boolean()`: accepts exactly boolean values. -/
def zBool : Schema :=
  ⟨fun v => match v with
    | .bool b => some (.bool b)
    | _ => none⟩

/-- `z.string()`: accepts exactly string values. -/
def zString : Schema :=
  ⟨fun v => match v with
    | .str s => some (.str s)
    | _ => none⟩

theorem zAny_parse (v : JsValue) : zAny.parse v = some v := rfl

/-- First-match property lookup on an object field list. -/
def lookupField (fs : List (String × JsValue)) (k : String) : Option JsValue :=
  (fs.find? (fun p => p.1 = k)).map (·.2)

/-- A value thrown by the user run function: either an `Error` instance
(name, message, optional stack) or an arbitrary JavaScript value. -/
inductive ThrownValue where
  | errorInstance : String → String → Option String → ThrownValue
  | value : JsValue → ThrownValue
deriving Repr

/-- `z.object({name: z.string(), message: z.string()}).passthrough().safeParse`:
succeeds exactly on objects whose `name` and `message` properties are
strings, returning the whole object (extra fields preserved). -/
def zNameMessageSafeParse : JsValue → Option JsValue
  | .obj fs =>
      match lookupField fs "name", lookupField fs "message" with
      | some (.str _), some (.str _) => some (.obj fs)
      | _, _ => none
  | _ => none

/-- The value is an object exposing `name` of type string and `message`
of type string. -/
def hasNameMessage : JsValue → Bool
  | .obj fs =>
      (match lookupField fs "name" with
       | some (.str _) => true
       | _ => false) &&
      (match lookupField fs "message" with
       | some (.str _) => true
       | _ => false)
  | _ => false

/-- `parseAnyError` from the user-failure branch of the
`TRIGGER_WORKFLOW` handler: an `Error` instance is reflected to
`(name, message, stackTrace)`; any other value passing the
name/message object schema is passed through; everything else becomes
the `UnknownError` record. -/
def parseAnyError : ThrownValue → JsValue
  | .errorInstance n m st =>
      .obj [("name", .str n), ("message", .str m),
            ("stackTrace", st.elim JsValue.undefined JsValue.str)]
  | .value v =>
      match zNameMessageSafeParse v with
      | some parsed => parsed
      | none =>
          .obj [("name", .str "UnknownError"),
                ("message", .str "An unknown error occurred")]

/-- `generateErrorMessage` of the `zod-error` package applied with
`zodErrorMessageOptions`: the validation issues joined with the
configured " 🔥 " delimiter. -/
def generateErrorMessage (issues : List String) : String :=
  String.intercalate " 🔥 " issues

/-- The settlement state of the promise backing a suspended context
call.  A JavaScript promise settles at most once; resolving or
rejecting a settled promise is a no-op. -/
inductive PromiseState where
  | pending : PromiseState
  | fulfilled : JsValue → PromiseState
  | rejectedWith : JsValue → PromiseState
deriving Repr

/-- One pending-callback `Map` of `TriggerClient`, keyed by
`messageKey runId key`, holding the promise each entry completes. -/
abbrev Table := List (String × PromiseState)

/-- `Map.get`: the promise state stored under a key, if any. -/
def tget (t : Table) (k : String) : Option PromiseState :=
  (t.find? (fun p => p.1 = k)).map (·.2)

/-- `Map.set`: overwrite the entry under `k` if present, else append. -/
def tset (t : Table) (k : String) (v : PromiseState) : Table :=
  if t.any (fun p => p.1 = k) then
    t.map (fun p => if p.1 = k then (p.1, v) else p)
  else
    t ++ [(k, v)]

/-- Settle the promise stored under `k` in place; the entry itself is
not removed. -/
def tsettle (t : Table) (k : String) (f : PromiseState → PromiseState) : Table :=
  t.map (fun p => if p.1 = k then (p.1, f p.2) else p)

/-- Resolving a promise: fulfills it if still pending, otherwise no-op. -/
def settleResolve (v : JsValue) : PromiseState → PromiseState
  | .pending => .fulfilled v
  | st => st

/-- Rejecting a promise: rejects it if still pending, otherwise no-op. -/
def settleReject (e : JsValue) : PromiseState → PromiseState
  | .pending => .rejectedWith e
  | st => st

/-- The seven pending-callback tables of `TriggerClient`, in source
order. -/
structure ClientState where
  responseCompleteCallbacks : Table
  waitForCallbacks : Table
  fetchCallbacks : Table
  runOnceCallbacks : Table
  kvGetCallbacks : Table
  kvSetCallbacks : Table
  kvDeleteCallbacks : Table

/-- A client with no pending calls registered. -/
def emptyClientState : ClientState :=
  ⟨[], [], [], [], [], [], []⟩

/-- A log event emitted by a handler, tagged with its level. -/
inductive LogEvent where
  | debug : String → LogEvent
  | info : String → LogEvent
  | errorLog : String → LogEvent
deriving Repr

/-- Whether a log event is at debug level. -/
def LogEvent.isDebug : LogEvent → Bool
  | .debug _ => true
  | _ => false

/-- The server-originated `RESOLVE_*` / `REJECT_*` messages handled by
the RPC receiver (the `TRIGGER_WORKFLOW` handler is modelled
separately).  Each carries `meta.runId` and `key`, plus an output or
error payload where the wire schema has one. -/
inductive InboundMsg where
  | resolveDelay : String → String → InboundMsg
  | resolveRunOnce : String → String → JsValue → InboundMsg
  | resolveRequest : String → String → JsValue → InboundMsg
  | rejectRequest : String → String → JsValue → InboundMsg
  | resolveFetchRequest : String → String → JsValue → InboundMsg
  | rejectFetchRequest : String → String → JsValue → InboundMsg
  | resolveKvGet : String → String → JsValue → InboundMsg
  | resolveKvSet : String → String → InboundMsg
  | resolveKvDelete : String → String → InboundMsg
deriving Repr

/-- The correlation key `messageKey data.meta.runId data.key` a message
is looked up under. -/
def msgKeyOf : InboundMsg → String
  | .resolveDelay r k => messageKey r k
  | .resolveRunOnce r k _ => messageKey r k
  | .resolveRequest r k _ => messageKey r k
  | .rejectRequest r k _ => messageKey r k
  | .resolveFetchRequest r k _ => messageKey r k
  | .rejectFetchRequest r k _ => messageKey r k
  | .resolveKvGet r k _ => messageKey r k
  | .resolveKvSet r k => messageKey r k
  | .resolveKvDelete r k => messageKey r k

/-- The pending-callback table a message is routed to. -/
def msgTableOf (s : ClientState) : InboundMsg → Table
  | .resolveDelay _ _ => s.waitForCallbacks
  | .resolveRunOnce _ _ _ => s.runOnceCallbacks
  | .resolveRequest _ _ _ => s.responseCompleteCallbacks
  | .rejectRequest _ _ _ => s.responseCompleteCallbacks
  | .resolveFetchRequest _ _ _ => s.fetchCallbacks
  | .rejectFetchRequest _ _ _ => s.fetchCallbacks
  | .resolveKvGet _ _ _ => s.kvGetCallbacks
  | .resolveKvSet _ _ => s.kvSetCallbacks
  | .resolveKvDelete _ _ => s.kvDeleteCallbacks

/-- How a message settles the promise it finds: resolves carry the
payload (or unit, modelled `undefined`), rejects carry the error. -/
def msgSettle : InboundMsg → PromiseState → PromiseState
  | .resolveDelay _ _ => settleResolve .undefined
  | .resolveRunOnce _ _ out => settleResolve out
  | .resolveRequest _ _ out => settleResolve out
  | .rejectRequest _ _ e => settleReject e
  | .resolveFetchRequest _ _ out => settleResolve out
  | .rejectFetchRequest _ _ e => settleReject e
  | .resolveKvGet _ _ out => settleResolve out
  | .resolveKvSet _ _ => settleResolve .undefined
  | .resolveKvDelete _ _ => settleResolve .undefined

/-- The RPC method name of a message, used in its handler's log lines. -/
def msgName : InboundMsg → String
  | .resolveDelay _ _ => "RESOLVE_DELAY"
  | .resolveRunOnce _ _ _ => "RESOLVE_RUN_ONCE"
  | .resolveRequest _ _ _ => "RESOLVE_REQUEST"
  | .rejectRequest _ _ _ => "REJECT_REQUEST"
  | .resolveFetchRequest _ _ _ => "RESOLVE_FETCH_REQUEST"
  | .rejectFetchRequest _ _ _ => "REJECT_FETCH_REQUEST"
  | .resolveKvGet _ _ _ => "RESOLVE_KV_GET"
  | .resolveKvSet _ _ => "RESOLVE_KV_SET"
  | .resolveKvDelete _ _ => "RESOLVE_KV_DELETE"

/-- Write the routed table back into the client state. -/
def msgPutTable (s : ClientState) (m : InboundMsg) (t : Table) : ClientState :=
  match m with
  | .resolveDelay _ _ => { s with waitForCallbacks := t }
  | .resolveRunOnce _ _ _ => { s with runOnceCallbacks := t }
  | .resolveRequest _ _ _ => { s with responseCompleteCallbacks := t }
  | .rejectRequest _ _ _ => { s with responseCompleteCallbacks := t }
  | .resolveFetchRequest _ _ _ => { s with fetchCallbacks := t }
  | .rejectFetchRequest _ _ _ => { s with fetchCallbacks := t }
  | .resolveKvGet _ _ _ => { s with kvGetCallbacks := t }
  | .resolveKvSet _ _ => { s with kvSetCallbacks := t }
  | .resolveKvDelete _ _ => { s with kvDeleteCallbacks := t }

/-- The `RESOLVE_*` / `REJECT_*` handler of `#initializeRPC`: log the
message at debug level, look up the pending callbacks under
`messageKey(meta.runId, key)`; when absent, log the miss at debug level
and acknowledge with `true`; when present, settle the stored promise
(the table entry is left in place) and acknowledge with `true`. -/
def handleInbound (s : ClientState) (m : InboundMsg) :
    ClientState × Bool × List LogEvent :=
  match tget (msgTableOf s m) (msgKeyOf m) with
  | none =>
      (s, true,
        [.debug ("Handling " ++ msgName m),
         .debug ("Could not find callbacks for request ID " ++ msgKeyOf m)])
  | some _ =>
      (msgPutTable s m (tsettle (msgTableOf s m) (msgKeyOf m) (msgSettle m)),
        true,
        [.debug ("Handling " ++ msgName m)])

/-- The outcome of the user run function's promise: it either resolves
with an output value or rejects with a thrown value. -/
inductive RunOutcome where
  | resolves : JsValue → RunOutcome
  | throws : ThrownValue → RunOutcome
deriving Repr

/-- Observable events of the `TRIGGER_WORKFLOW` handler, in emission
order: the user-visible dashboard log lines, the three workflow RPCs,
and the invocation of the user run function. -/
inductive WfEvent where
  | logRunStarted : String → WfEvent
  | sendStartWorkflowRun : String → WfEvent
  | invokeUserFunction : String → WfEvent
  | logRunComplete : String → WfEvent
  | sendCompleteWorkflowRun : String → Option String → WfEvent
  | sendWorkflowError : String → JsValue → WfEvent
deriving Repr

/-- The `SEND_WORKFLOW_ERROR` payload produced on event-schema
validation failure. -/
def validationErrorObj (issues : List String) : JsValue :=
  .obj [("name", .str "Event validation error"),
        ("message", .str (generateErrorMessage issues))]

/-- The `TRIGGER_WORKFLOW` handler of `#initializeRPC`, as the trace of
events it emits together with its boolean acknowledgement.

* `validation` is the result of `this.#options.on.schema.safeParse
  (data.trigger.input)` — `.error issues` on failure.
* `attempt` is `data.meta.attempt` (`some` when it is a number).
* `startOk` tells whether the `START_WORKFLOW_RUN` transport send
  succeeds; when it fails (`startErr` the rejection value), the outer
  catch reports the raw cause via `SEND_WORKFLOW_ERROR` and the user
  function is never invoked.  All other sends are modelled as
  succeeding.
* `outcome` is the settlement of `this.#trigger.options.run(eventData,
  ctx)`. -/
def handleTriggerWorkflow (runId : String)
    (validation : Except (List String) JsValue) (attempt : Option Int)
    (startOk : Bool) (startErr : JsValue) (outcome : RunOutcome) :
    List WfEvent × Bool :=
  match validation with
  | .error issues =>
      ([.sendWorkflowError runId (validationErrorObj issues)], true)
  | .ok _ =>
      let startLog : List WfEvent :=
        if attempt = some 0 then [.logRunStarted runId] else []
      if startOk then
        (startLog ++
          [.sendStartWorkflowRun runId, .invokeUserFunction runId] ++
          (match outcome with
           | .resolves out =>
               [.logRunComplete runId,
                .sendCompleteWorkflowRun runId (jsonStringify out)]
           | .throws e =>
               [.sendWorkflowError runId (parseAnyError e)]),
          true)
      else
        (startLog ++
          [.sendStartWorkflowRun runId, .sendWorkflowError runId startErr],
          true)

/-- The terminal workflow RPCs: `COMPLETE_WORKFLOW_RUN` and
`SEND_WORKFLOW_ERROR`. -/
def isTerminalRpc : WfEvent → Bool
  | .sendCompleteWorkflowRun _ _ => true
  | .sendWorkflowError _ _ => true
  | _ => false

/-- A server fetch reply as delivered by `RESOLVE_FETCH_REQUEST`. -/
structure FetchResponse where
  status : Int
  ok : Bool
  headers : JsValue
  body : JsValue

/-- What the caller of `ctx.fetch` receives. -/
structure FetchReturn where
  status : Int
  ok : Bool
  headers : JsValue
  body : JsValue
deriving Repr

/-- The value `fetchFunction` produces from the server reply: status,
ok and headers are passed through; the body is parsed through
`options.responseSchema ?? z.any()` only when it is truthy (a `.error`
models the rejection of the fetch call when `parse` throws), and a
falsy body yields `undefined` without consulting the schema. -/
def fetchReturn (responseSchema : Option Schema) (resp : FetchResponse) :
    Except String FetchReturn :=
  if truthy resp.body then
    match (responseSchema.getD zAny).parse resp.body with
    | some v => .ok ⟨resp.status, resp.ok, resp.headers, v⟩
    | none => .error "response body failed schema validation"
  else
    .ok ⟨resp.status, resp.ok, resp.headers, .undefined⟩

/-- The server reply to `INITIALIZE_RUN_ONCE` (`RunOnceOutput` in the
source); an absent `output` is `undefined`. -/
structure RunOnceReply where
  idempotencyKey : String
  hasRun : Bool
  output : JsValue

/-- Observable events of a `runOnce` call after its reply arrives. -/
inductive RoEvent where
  | sendInitRunOnce : String → String → RoEvent
  | cbInvoked : String → RoEvent
  | sendCompleteRunOnce : String → String → Option String → RoEvent
deriving Repr

/-- `ctx.runOnce(key, callback)`: journal `INITIALIZE_RUN_ONCE`, await
the reply; if `hasRun`, return the stored output; otherwise run the
callback with the reply's idempotency key, journal `COMPLETE_RUN_ONCE`
whose output is `JSON.stringify(callbackResult)` when the result is
truthy and `undefined` otherwise, and return the callback's result. -/
def runOnceRun (runId key : String) (reply : RunOnceReply)
    (cb : String → JsValue) : List RoEvent × JsValue :=
  if reply.hasRun then
    ([.sendInitRunOnce runId key], reply.output)
  else
    let callbackResult := cb reply.idempotencyKey
    ([.sendInitRunOnce runId key,
      .cbInvoked reply.idempotencyKey,
      .sendCompleteRunOnce runId key
        (if truthy callbackResult then jsonStringify callbackResult
         else none)],
     callbackResult)

/-- Count of callback invocations in a `runOnce` trace. -/
def cbInvocations (tr : List RoEvent) : Nat :=
  (tr.filter (fun e => match e with | .cbInvoked _ => true | _ => false)).length

/-- One settlement of `this.#serverRPC.send` inside the `#send` loop:
a rejection with `TimeoutError`, a rejection with any other error, or
a successful reply. -/
inductive RpcOutcome where
  | timeout : RpcOutcome
  | failure : JsValue → RpcOutcome
  | success : JsValue → RpcOutcome
deriving Repr

/-- `#retryIntervalMs` of `TriggerClient`. -/
def retryIntervalMs : Nat := 3000

/-- Observable events of the `#send` loop: an attempt of the underlying
RPC send, and a fixed-backoff sleep after a timeout. -/
inductive SendEvent where
  | rpcAttempt : SendEvent
  | sleepMs : Nat → SendEvent
deriving Repr

/-- The `while (true)` loop of `#send`, driven by the list of outcomes
the underlying `serverRPC.send` produces on successive attempts: a
`TimeoutError` is logged, slept over for `#retryIntervalMs`, and
retried; a success returns the reply; any other rejection is rethrown.
`none` as final result means every supplied attempt timed out and the
loop is still retrying. -/
def sendRun : List RpcOutcome → List SendEvent × Option (Except JsValue JsValue)
  | [] => ([], none)
  | .timeout :: rest =>
      let (evs, r) := sendRun rest
      (.rpcAttempt :: .sleepMs retryIntervalMs :: evs, r)
  | .failure e :: _ => ([.rpcAttempt], some (.error e))
  | .success v :: _ => ([.rpcAttempt], some (.ok v))

/-- The journaled context operations whose preamble registers a
completion pair and then sends the intent RPC. -/
inductive CtxOpKind where
  | fetchOp | waitForOp | waitUntilOp | runOnceOp | runOnceLocalOnlyOp
  | performRequestOp | kvGetOp | kvSetOp | kvDeleteOp
deriving Repr

/-- Names of the seven pending-callback tables. -/
inductive TableId where
  | requestTable | waitTable | fetchTable | runOnceTable
  | kvGetTable | kvSetTable | kvDeleteTable
deriving Repr

/-- The table each operation registers its completion pair in. -/
def tableIdOf : CtxOpKind → TableId
  | .fetchOp => .fetchTable
  | .waitForOp => .waitTable
  | .waitUntilOp => .waitTable
  | .runOnceOp => .runOnceTable
  | .runOnceLocalOnlyOp => .runOnceTable
  | .performRequestOp => .requestTable
  | .kvGetOp => .kvGetTable
  | .kvSetOp => .kvSetTable
  | .kvDeleteOp => .kvDeleteTable

/-- The intent RPC method each operation sends. -/
def methodOf : CtxOpKind → String
  | .fetchOp => "SEND_FETCH"
  | .waitForOp => "INITIALIZE_DELAY"
  | .waitUntilOp => "INITIALIZE_DELAY"
  | .runOnceOp => "INITIALIZE_RUN_ONCE"
  | .runOnceLocalOnlyOp => "INITIALIZE_RUN_ONCE"
  | .performRequestOp => "SEND_REQUEST"
  | .kvGetOp => "SEND_KV_GET"
  | .kvSetOp => "SEND_KV_SET"
  | .kvDeleteOp => "SEND_KV_DELETE"

/-- Project a table out of the client state by name. -/
def getTable (s : ClientState) : TableId → Table
  | .requestTable => s.responseCompleteCallbacks
  | .waitTable => s.waitForCallbacks
  | .fetchTable => s.fetchCallbacks
  | .runOnceTable => s.runOnceCallbacks
  | .kvGetTable => s.kvGetCallbacks
  | .kvSetTable => s.kvSetCallbacks
  | .kvDeleteTable => s.kvDeleteCallbacks

/-- Replace a table in the client state by name. -/
def putTable (s : ClientState) : TableId → Table → ClientState
  | .requestTable, t => { s with responseCompleteCallbacks := t }
  | .waitTable, t => { s with waitForCallbacks := t }
  | .fetchTable, t => { s with fetchCallbacks := t }
  | .runOnceTable, t => { s with runOnceCallbacks := t }
  | .kvGetTable, t => { s with kvGetCallbacks := t }
  | .kvSetTable, t => { s with kvSetCallbacks := t }
  | .kvDeleteTable, t => { s with kvDeleteCallbacks := t }

/-- Step events of a journaled context operation's preamble. -/
inductive OpEvent where
  | registerCb : TableId → String → OpEvent
  | sendRpc : String → String → String → OpEvent
  | awaitResult : TableId → String → OpEvent
deriving Repr

/-- The preamble common to every journaled context operation in the
source: the `new Promise` executor synchronously stores the
`(resolve, reject)` pair in the operation's table under
`messageKey(data.id, key)`, then the intent RPC is sent, then the
promise is awaited. -/
def ctxOpStep (op : CtxOpKind) (s : ClientState) (runId key : String) :
    ClientState × List OpEvent :=
  let mk := messageKey runId key
  let tid := tableIdOf op
  (putTable s tid (tset (getTable s tid) mk .pending),
   [.registerCb tid mk,
    .sendRpc (methodOf op) runId key,
    .awaitResult tid mk])

/-- Settling a promise in place never changes the set of keys of a
table. -/
theorem tsettle_keys (t : Table) (k : String) (f : PromiseState → PromiseState) :
    (tsettle t k f).map Prod.fst = t.map Prod.fst := by
  induction t with
  | nil => rfl
  | cons p t ih =>
      simp only [tsettle, List.map_cons] at *
      by_cases hp : p.1 = k
      · simp [hp, ih]
      · simp [hp, ih]

/-- After `Map.set`, the key maps to the stored value. -/
theorem tget_tset_self (t : Table) (k : String) (v : PromiseState) :
    tget (tset t k v) k = some v := by
  unfold tset
  by_cases h : t.any (fun p => p.1 = k)
  · simp only [h, if_true]
    induction t with
    | nil => simp at h
    | cons p t ih =>
        by_cases hp : p.1 = k
        · simp [tget, List.find?, hp]
        · rw [List.any_cons, decide_eq_false hp, Bool.false_or] at h
          simp only [List.map_cons, if_neg hp]
          simpa [tget, List.find?, hp] using ih h
  · simp only [h, if_false]
    induction t with
    | nil => simp [tget, List.find?]
    | cons p t ih =>
        simp only [List.any_cons, Bool.or_eq_true, decide_eq_true_eq] at h
        push_neg at h
        simp only [List.cons_append]
        simpa [tget, List.find?, h.1] using ih (by simpa using h.2)

/-- The per-table key lists of a client state, in source order. -/
def stateKeys (s : ClientState) : List (List String) :=
  [s.responseCompleteCallbacks.map Prod.fst,
   s.waitForCallbacks.map Prod.fst,
   s.fetchCallbacks.map Prod.fst,
   s.runOnceCallbacks.map Prod.fst,
   s.kvGetCallbacks.map Prod.fst,
   s.kvSetCallbacks.map Prod.fst,
   s.kvDeleteCallbacks.map Prod.fst]

/-- C6 (amended): no `RESOLVE_*`/`REJECT_*` handler removes table
entries — every handler leaves the key set of all seven
pending-callback tables unchanged, settling the stored promise in
place when the key is found. -/
theorem handler_preserves_table_entries (s : ClientState) (m : InboundMsg) :
    stateKeys (handleInbound s m).1 = stateKeys s := by
  unfold handleInbound
  cases h : tget (msgTableOf s m) (msgKeyOf m) with
  | none => rfl
  | some st =>
      cases m <;>
        simp [msgPutTable, msgTableOf, stateKeys, tsettle_keys]

/-- C6 (counterexample): the claim says an entry is removed from its
table upon resolution; after `RESOLVE_DELAY` settles the registered
entry `r1:d1`, the entry is still present in `waitForCallbacks` (the
source never calls `Map.delete`, and no `clear(runId)` exists). -/
theorem resolve_delay_entry_not_removed :
    tget (handleInbound
        { emptyClientState with waitForCallbacks := [("r1:d1", .pending)] }
        (.resolveDelay "r1" "d1")).1.waitForCallbacks
      (messageKey "r1" "d1") = some (.fulfilled .undefined) ∧
    ¬ (tget (handleInbound
        { emptyClientState with waitForCallbacks := [("r1:d1", .pending)] }
        (.resolveDelay "r1" "d1")).1.waitForCallbacks
      (messageKey "r1" "d1") = none) := by
  refine ⟨rfl, ?_⟩
  intro h
  rw [show tget (handleInbound
        { emptyClientState with waitForCallbacks := [("r1:d1", .pending)] }
        (.resolveDelay "r1" "d1")).1.waitForCallbacks
      (messageKey "r1" "d1") = some (.fulfilled .undefined) from rfl] at h
  exact Option.noConfusion h

/-- C7: an inbound `RESOLVE_*`/`REJECT_*` whose `(runId, key)` has no
registered entry in the matching pending-call table is logged at debug
level only, acknowledged with `true`, raises no error, and leaves the
client state untouched. -/
theorem unknown_resolve_is_tolerated (s : ClientState) (m : InboundMsg)
    (h : tget (msgTableOf s m) (msgKeyOf m) = none) :
    handleInbound s m =
      (s, true,
        [.debug ("Handling " ++ msgName m),
         .debug ("Could not find callbacks for request ID " ++ msgKeyOf m)]) ∧
    ∀ l ∈ (handleInbound s m).2.2, l.isDebug = true := by
  unfold handleInbound
  rw [h]
  refine ⟨rfl, ?_⟩
  intro l hl
  simp only [List.mem_cons, List.mem_singleton] at hl
  rcases hl with hl | hl | hl
  · rw [hl]; rfl
  · rw [hl]; rfl
  · cases hl

/-- C7 witness: the spec's literal scenario — `RESOLVE_DELAY` for
`runId "r99"`, `key "d9"` against a client with nothing registered is
acknowledged with `true` and changes nothing. -/
theorem unknown_resolve_is_tolerated_witness :
    handleInbound emptyClientState (.resolveDelay "r99" "d9") =
      (emptyClientState, true,
        [.debug ("Handling " ++ msgName (.resolveDelay "r99" "d9")),
         .debug ("Could not find callbacks for request ID " ++
           msgKeyOf (.resolveDelay "r99" "d9"))]) :=
  (unknown_resolve_is_tolerated emptyClientState (.resolveDelay "r99" "d9") rfl).1

/-- The event trace of one `TRIGGER_WORKFLOW` handling. -/
def wfTrace (runId : String) (validation : Except (List String) JsValue)
    (attempt : Option Int) (startOk : Bool) (startErr : JsValue)
    (outcome : RunOutcome) : List WfEvent :=
  (handleTriggerWorkflow runId validation attempt startOk startErr outcome).1

/-- C2: a `TRIGGER_WORKFLOW` whose event input fails the user trigger
schema produces exactly one outbound message — a `SEND_WORKFLOW_ERROR`
named "Event validation error" carrying the flattened validation
message — the handler acknowledges with `true`, no `START_WORKFLOW_RUN`
is sent and the user function is never invoked. -/
theorem validation_failure_single_error (runId : String)
    (issues : List String) (attempt : Option Int) (startOk : Bool)
    (startErr : JsValue) (outcome : RunOutcome) :
    handleTriggerWorkflow runId (.error issues) attempt startOk startErr outcome =
      ([.sendWorkflowError runId
          (.obj [("name", .str "Event validation error"),
                 ("message", .str (generateErrorMessage issues))])], true) ∧
    WfEvent.sendStartWorkflowRun runId ∉
      wfTrace runId (.error issues) attempt startOk startErr outcome ∧
    WfEvent.invokeUserFunction runId ∉
      wfTrace runId (.error issues) attempt startOk startErr outcome := by
  refine ⟨rfl, ?_, ?_⟩ <;>
    simp [wfTrace, handleTriggerWorkflow, validationErrorObj]

/-- C1: once the event input validates, the handler emits exactly one
terminal RPC; when the `START_WORKFLOW_RUN` transport send succeeds,
`COMPLETE_WORKFLOW_RUN` (carrying the `JSON.stringify`-ed output) is
emitted iff the user run function resolves, and `SEND_WORKFLOW_ERROR`
iff it throws — never both for the same run. -/
theorem terminal_rpc_exclusive (runId : String) (d : JsValue)
    (attempt : Option Int) (startOk : Bool) (startErr : JsValue)
    (outcome : RunOutcome) :
    ((wfTrace runId (.ok d) attempt startOk startErr outcome).filter
        isTerminalRpc).length = 1 ∧
    (startOk = true →
      ((∃ o, WfEvent.sendCompleteWorkflowRun runId o ∈
          wfTrace runId (.ok d) attempt startOk startErr outcome) ↔
        ∃ out, outcome = .resolves out) ∧
      ((∃ e, WfEvent.sendWorkflowError runId e ∈
          wfTrace runId (.ok d) attempt startOk startErr outcome) ↔
        ∃ err, outcome = .throws err) ∧
      (∀ out, outcome = .resolves out →
        WfEvent.sendCompleteWorkflowRun runId (jsonStringify out) ∈
          wfTrace runId (.ok d) attempt startOk startErr outcome)) := by
  by_cases h : attempt = some 0 <;>
    cases startOk <;>
      cases outcome <;>
        simp [wfTrace, handleTriggerWorkflow, isTerminalRpc, h]

/-- C1 witness: the spec's happy-path scenario — validated input,
attempt 0, successful `START_WORKFLOW_RUN`, user function resolving
with `null` — emits exactly one terminal RPC, the
`COMPLETE_WORKFLOW_RUN`. -/
theorem terminal_rpc_exclusive_witness :
    ((wfTrace "r1" (.ok .null) (some 0) true .undefined (.resolves .null)).filter
        isTerminalRpc).length = 1 ∧
    WfEvent.sendCompleteWorkflowRun "r1" (jsonStringify .null) ∈
      wfTrace "r1" (.ok .null) (some 0) true .undefined (.resolves .null) := by
  have h := terminal_rpc_exclusive "r1" .null (some 0) true .undefined (.resolves .null)
  exact ⟨h.1, (h.2 rfl).2.2 .null rfl⟩

/-- C8: with a validated event, `START_WORKFLOW_RUN` is emitted strictly
before the user run function is invoked, and the user-visible
"Run started" dashboard log line is emitted iff the run's attempt
number is 0. -/
theorem start_precedes_invoke (runId : String) (d : JsValue)
    (attempt : Option Int) (startOk : Bool) (startErr : JsValue)
    (outcome : RunOutcome) :
    (∃ pre post,
       wfTrace runId (.ok d) attempt startOk startErr outcome =
         pre ++ WfEvent.sendStartWorkflowRun runId :: post ∧
       WfEvent.invokeUserFunction runId ∉ pre) ∧
    (WfEvent.logRunStarted runId ∈
        wfTrace runId (.ok d) attempt startOk startErr outcome ↔
      attempt = some 0) := by
  refine ⟨?_, ?_⟩
  · cases startOk with
    | false =>
        by_cases h : attempt = some 0
        · exact ⟨[WfEvent.logRunStarted runId],
            [WfEvent.sendWorkflowError runId startErr],
            by simp [wfTrace, handleTriggerWorkflow, h], by simp⟩
        · exact ⟨[], [WfEvent.sendWorkflowError runId startErr],
            by simp [wfTrace, handleTriggerWorkflow, h], by simp⟩
    | true =>
        cases outcome with
        | resolves out =>
            by_cases h : attempt = some 0
            · exact ⟨[WfEvent.logRunStarted runId],
                [WfEvent.invokeUserFunction runId, WfEvent.logRunComplete runId,
                 WfEvent.sendCompleteWorkflowRun runId (jsonStringify out)],
                by simp [wfTrace, handleTriggerWorkflow, h], by simp⟩
            · exact ⟨[],
                [WfEvent.invokeUserFunction runId, WfEvent.logRunComplete runId,
                 WfEvent.sendCompleteWorkflowRun runId (jsonStringify out)],
                by simp [wfTrace, handleTriggerWorkflow, h], by simp⟩
        | throws e =>
            by_cases h : attempt = some 0
            · exact ⟨[WfEvent.logRunStarted runId],
                [WfEvent.invokeUserFunction runId,
                 WfEvent.sendWorkflowError runId (parseAnyError e)],
                by simp [wfTrace, handleTriggerWorkflow, h], by simp⟩
            · exact ⟨[],
                [WfEvent.invokeUserFunction runId,
                 WfEvent.sendWorkflowError runId (parseAnyError e)],
                by simp [wfTrace, handleTriggerWorkflow, h], by simp⟩
  · by_cases h : attempt = some 0 <;>
      cases startOk <;>
        cases outcome <;>
          simp [wfTrace, handleTriggerWorkflow, h]

/-- The name/message safeParse succeeds, returning its input unchanged,
exactly on values exposing string `name` and `message` properties. -/
theorem zNameMessageSafeParse_eq (v : JsValue) :
    zNameMessageSafeParse v = if hasNameMessage v then some v else none := by
  cases v
  case obj fs =>
    cases hn : lookupField fs "name" with
    | none => simp [zNameMessageSafeParse, hasNameMessage, hn]
    | some nv =>
        cases hm : lookupField fs "message" with
        | none => cases nv <;> simp [zNameMessageSafeParse, hasNameMessage, hn, hm]
        | some mv =>
            cases nv <;> cases mv <;>
              simp [zNameMessageSafeParse, hasNameMessage, hn, hm]
  all_goals simp [zNameMessageSafeParse, hasNameMessage]

/-- C5: the normalization applied to a value thrown by the user run
function — an `Error` instance is reflected to its name, message and
stack; any other object exposing string `name` and `message` is passed
through unchanged (extra fields preserved); every other value becomes
the `UnknownError` record. -/
theorem error_normalization :
    (∀ n m st, parseAnyError (.errorInstance n m st) =
        .obj [("name", .str n), ("message", .str m),
              ("stackTrace", st.elim JsValue.undefined JsValue.str)]) ∧
    (∀ v, hasNameMessage v = true → parseAnyError (.value v) = v) ∧
    (∀ v, hasNameMessage v = false →
        parseAnyError (.value v) =
          .obj [("name", .str "UnknownError"),
                ("message", .str "An unknown error occurred")]) := by
  refine ⟨fun n m st => rfl, ?_, ?_⟩ <;>
    · intro v h
      simp [parseAnyError, zNameMessageSafeParse_eq, h]

/-- C5 witness: a thrown plain object with string `name`, `message` and
an extra field is passed through whole; a thrown string becomes the
`UnknownError` record. -/
theorem error_normalization_witness :
    parseAnyError (.value (.obj [("name", .str "E"), ("message", .str "m"),
        ("code", .num 7)])) =
      .obj [("name", .str "E"), ("message", .str "m"), ("code", .num 7)] ∧
    parseAnyError (.value (.str "boom")) =
      .obj [("name", .str "UnknownError"),
            ("message", .str "An unknown error occurred")] :=
  ⟨error_normalization.2.1 _ rfl, error_normalization.2.2 _ rfl⟩

/-- C2 witness: the spec's schema-failure scenario instantiated — one
`SEND_WORKFLOW_ERROR` named "Event validation error", no
`START_WORKFLOW_RUN`, no user-function invocation. -/
theorem validation_failure_single_error_witness :
    handleTriggerWorkflow "r1" (.error ["Expected number"]) (some 0) true
        .undefined (.resolves .null) =
      ([.sendWorkflowError "r1"
          (.obj [("name", .str "Event validation error"),
                 ("message", .str (generateErrorMessage ["Expected number"]))])],
        true) :=
  (validation_failure_single_error "r1" ["Expected number"] (some 0) true
    .undefined (.resolves .null)).1

/-- C8 witness: the happy-path run at attempt 0 — `START_WORKFLOW_RUN`
occurs with no user-function invocation before it, and the dashboard
log line is present. -/
theorem start_precedes_invoke_witness :
    (∃ pre post,
       wfTrace "r1" (.ok (.obj [("n", .num 1)])) (some 0) true .undefined
           (.resolves (.obj [("ok", .bool true)])) =
         pre ++ WfEvent.sendStartWorkflowRun "r1" :: post ∧
       WfEvent.invokeUserFunction "r1" ∉ pre) ∧
    (WfEvent.logRunStarted "r1" ∈
        wfTrace "r1" (.ok (.obj [("n", .num 1)])) (some 0) true .undefined
          (.resolves (.obj [("ok", .bool true)])) ↔
      (some 0 : Option Int) = some 0) :=
  start_precedes_invoke "r1" (.obj [("n", .num 1)]) (some 0) true .undefined
    (.resolves (.obj [("ok", .bool true)]))

/-- C3: `runOnce` — on `hasRun:true` the callback is never invoked, the
stored output is returned and no `COMPLETE_RUN_ONCE` is journaled; on
`hasRun:false` the callback runs exactly once with the reply's
idempotency key, a `COMPLETE_RUN_ONCE` is journaled whose output field
is `JSON.stringify` of the callback result or `undefined`, and the
callback's result is returned. -/
theorem run_once_behaviour (runId key : String) (reply : RunOnceReply)
    (cb : String → JsValue) :
    (reply.hasRun = true →
       runOnceRun runId key reply cb = ([.sendInitRunOnce runId key], reply.output) ∧
       cbInvocations (runOnceRun runId key reply cb).1 = 0 ∧
       ∀ o, RoEvent.sendCompleteRunOnce runId key o ∉
         (runOnceRun runId key reply cb).1) ∧
    (reply.hasRun = false →
       (runOnceRun runId key reply cb).2 = cb reply.idempotencyKey ∧
       cbInvocations (runOnceRun runId key reply cb).1 = 1 ∧
       RoEvent.cbInvoked reply.idempotencyKey ∈ (runOnceRun runId key reply cb).1 ∧
       RoEvent.sendCompleteRunOnce runId key
           (if truthy (cb reply.idempotencyKey) then
              jsonStringify (cb reply.idempotencyKey)
            else none) ∈ (runOnceRun runId key reply cb).1 ∧
       ((if truthy (cb reply.idempotencyKey) then
           jsonStringify (cb reply.idempotencyKey)
         else none) = jsonStringify (cb reply.idempotencyKey) ∨
        (if truthy (cb reply.idempotencyKey) then
           jsonStringify (cb reply.idempotencyKey)
         else none) = none)) := by
  constructor
  · intro h
    refine ⟨?_, ?_, ?_⟩ <;> simp [runOnceRun, h, cbInvocations]
  · intro h
    refine ⟨?_, ?_, ?_, ?_, ?_⟩
    · simp [runOnceRun, h]
    · simp [runOnceRun, h, cbInvocations]
    · simp [runOnceRun, h]
    · simp [runOnceRun, h]
    · by_cases ht : truthy (cb reply.idempotencyKey) <;> simp [ht]

/-- C3 witness: the spec's cache-hit scenario (`hasRun:true`, stored
output `{v:42}`) returns the stored output without invoking the
callback, and a cache-miss run (`hasRun:false`) returns the callback's
result with it journaled in `COMPLETE_RUN_ONCE`. -/
theorem run_once_behaviour_witness :
    runOnceRun "r1" "k" ⟨"i", true, .obj [("v", .num 42)]⟩ (fun _ => .num 7) =
      ([.sendInitRunOnce "r1" "k"], .obj [("v", .num 42)]) ∧
    (runOnceRun "r1" "k" ⟨"i", false, .undefined⟩ (fun _ => .num 7)).2 = .num 7 :=
  ⟨((run_once_behaviour "r1" "k" ⟨"i", true, .obj [("v", .num 42)]⟩
      (fun _ => .num 7)).1 rfl).1,
   ((run_once_behaviour "r1" "k" ⟨"i", false, .undefined⟩
      (fun _ => .num 7)).2 rfl).1⟩

/-- C4 (counterexample): the claim says a body conforming to the
supplied `responseSchema` is returned as the parsed value; for the
falsy body `false` and `z.boolean()` the parse succeeds with `false`,
yet `fetchFunction` short-circuits on body truthiness and returns an
`undefined` body without rejecting. -/
theorem fetch_falsy_body_counterexample :
    zBool.parse (JsValue.bool false) = some (JsValue.bool false) ∧
    fetchReturn (some zBool) ⟨200, true, .obj [], .bool false⟩ =
      .ok ⟨200, true, .obj [], .undefined⟩ ∧
    (JsValue.undefined = JsValue.bool false → False) := by
  refine ⟨rfl, rfl, ?_⟩
  intro h
  cases h

/-- C4 (amended): when the server-supplied body is truthy, a supplied
`responseSchema` that accepts it yields the parsed value as the
returned body and a schema failure rejects the call; a falsy body
yields an `undefined` body without consulting the schema; with no
schema a truthy body is returned as-is; `status`, `ok` and `headers`
pass through unchanged in every non-rejecting case. -/
theorem fetch_return_amended (os : Option Schema) (resp : FetchResponse) :
    (truthy resp.body = true →
       (∀ v, (os.getD zAny).parse resp.body = some v →
          fetchReturn os resp = .ok ⟨resp.status, resp.ok, resp.headers, v⟩) ∧
       ((os.getD zAny).parse resp.body = none →
          fetchReturn os resp = .error "response body failed schema validation")) ∧
    (truthy resp.body = false →
       fetchReturn os resp = .ok ⟨resp.status, resp.ok, resp.headers, .undefined⟩) ∧
    (os = none → truthy resp.body = true →
       fetchReturn os resp = .ok ⟨resp.status, resp.ok, resp.headers, resp.body⟩) := by
  refine ⟨fun ht => ⟨fun v hv => ?_, fun hv => ?_⟩, fun ht => ?_, fun hos ht => ?_⟩
  · simp [fetchReturn, ht, hv]
  · simp [fetchReturn, ht, hv]
  · simp [fetchReturn, ht]
  · subst hos
    simp [fetchReturn, ht, zAny]

/-- C4 witness: a truthy boolean body conforming to `z.boolean()` is
returned parsed; a truthy string body rejected by `z.boolean()` rejects
the call; a falsy body yields `undefined`. -/
theorem fetch_return_amended_witness :
    fetchReturn (some zBool) ⟨200, true, .obj [], .bool true⟩ =
      .ok ⟨200, true, .obj [], .bool true⟩ ∧
    fetchReturn (some zBool) ⟨200, true, .obj [], .str "x"⟩ =
      .error "response body failed schema validation" ∧
    fetchReturn (some zBool) ⟨404, false, .obj [], .null⟩ =
      .ok ⟨404, false, .obj [], .undefined⟩ :=
  ⟨((fetch_return_amended (some zBool) ⟨200, true, .obj [], .bool true⟩).1
      rfl).1 (.bool true) rfl,
   ((fetch_return_amended (some zBool) ⟨200, true, .obj [], .str "x"⟩).1
      rfl).2 rfl,
   (fetch_return_amended (some zBool) ⟨404, false, .obj [], .null⟩).2.1 rfl⟩

/-- The events of `n` consecutive timed-out attempts: each attempt is
followed by a fixed-backoff sleep of `#retryIntervalMs`. -/
def retryEvents : Nat → List SendEvent
  | 0 => []
  | n + 1 => .rpcAttempt :: .sleepMs retryIntervalMs :: retryEvents n

/-- Splitting the `#send` loop at a block of leading timeouts. -/
theorem sendRun_replicate_timeout (n : Nat) (l : List RpcOutcome) :
    sendRun (List.replicate n .timeout ++ l) =
      (retryEvents n ++ (sendRun l).1, (sendRun l).2) := by
  induction n with
  | zero => simp [retryEvents]
  | succ n ih => simp [List.replicate_succ, sendRun, ih, retryEvents]

/-- C9: the `#send` wrapper retries the same call after every
`TimeoutError`, sleeping the fixed `#retryIntervalMs` (3000 ms) between
attempts, for as long as timeouts continue; the first successful reply
is returned; the first non-timeout rejection is propagated to the
caller with no further attempt and no backoff sleep after it. -/
theorem send_retries_on_timeout_only (n : Nat) (v e : JsValue)
    (rest : List RpcOutcome) :
    sendRun (List.replicate n .timeout ++ .success v :: rest) =
      (retryEvents n ++ [.rpcAttempt], some (.ok v)) ∧
    sendRun (List.replicate n .timeout ++ .failure e :: rest) =
      (retryEvents n ++ [.rpcAttempt], some (.error e)) ∧
    sendRun (.failure e :: rest) = ([.rpcAttempt], some (.error e)) ∧
    sendRun (List.replicate n .timeout) = (retryEvents n, none) ∧
    (retryEvents n).filter
        (fun ev => match ev with | .sleepMs _ => true | _ => false) =
      List.replicate n (.sleepMs retryIntervalMs) ∧
    retryIntervalMs = 3000 := by
  refine ⟨?_, ?_, rfl, ?_, ?_, rfl⟩
  · simp [sendRun_replicate_timeout, sendRun]
  · simp [sendRun_replicate_timeout, sendRun]
  · simpa [sendRun] using sendRun_replicate_timeout n []
  · induction n with
    | zero => simp [retryEvents]
    | succ n ih => simp [retryEvents, List.replicate_succ, ih]

/-- C10: every journaled context operation's preamble registers the
`(resolve, reject)` completion pair in its pending-call table under
`runId ":" key` as the first step, strictly before the intent RPC send
(the second step); after that preamble the entry is present in the
table, so any later `RESOLVE_*`/`REJECT_*` finds it registered. -/
theorem register_before_intent_send (op : CtxOpKind) (s : ClientState)
    (runId key : String) :
    (ctxOpStep op s runId key).2 =
      [.registerCb (tableIdOf op) (messageKey runId key),
       .sendRpc (methodOf op) runId key,
       .awaitResult (tableIdOf op) (messageKey runId key)] ∧
    tget (getTable (ctxOpStep op s runId key).1 (tableIdOf op))
        (messageKey runId key) = some .pending := by
  refine ⟨rfl, ?_⟩
  cases op <;>
    simp [ctxOpStep, getTable, putTable, tableIdOf, tget_tset_self]
